import Mathlib

/-!
Verification development for the docu-rag backend's indexing pipeline and
similarity-search engine.

The Python source (backend/app) is shallowly embedded:

* Numeric "float" values are modelled as rationals.
* Effectful methods become pure state-passing functions over an explicit
  `DBState` (relational rows plus the vector collection).  Database commits
  always succeed in the model; the external boundaries that can genuinely
  fail (file extraction, the Gemini embedding API, the ChromaDB add call)
  are parameters of type `Except`/`Bool` so that every failure configuration
  is quantified over.
* Python exceptions become `Except` values; a raised exception carries the
  database state as already mutated (Python performs no rollback of earlier
  committed steps).
* Timestamps, timing details, and rate-limiter sleeps are not modelled;
  log messages keep their fixed prefixes but drop interpolated durations.
-/

/-- Document lifecycle status (`app.models.enums.DocumentStatus`). -/
inductive DocumentStatus where
  | uploaded
  | processing
  | indexed
  | failed
deriving DecidableEq, Repr

/-- Pipeline stage (`app.models.enums.ProcessingStage`). -/
inductive ProcessingStage where
  | extraction
  | chunking
  | embedding
  | indexing
  | complete
deriving DecidableEq, Repr

/-- A Python value as it appears in the metadata dictionaries the indexing
pipeline builds (`document_id`/counts are ints, `start_page`/`end_page` may be
`None`, file name/type are strings).  The `float`, `list` and `dict` branches
of `VectorStore._clean_metadata` are not exercised by any caller in the
repository, so those constructors are omitted from the model. -/
inductive PyVal where
  | none
  | str (s : String)
  | int (n : Int)
  | bool (b : Bool)
deriving DecidableEq, Repr

/-- Python `str(value)` on the modelled primitive values. -/
def pyStr : PyVal → String
  | .none => "None"
  | .str s => s
  | .int n => toString n
  | .bool b => if b then "True" else "False"

/-- `VectorStore._clean_metadata` (vector_store.py lines 50-79): drop
`None`-valued keys, convert every remaining value to its string
representation.  Keys are already strings so `str(key)` is the identity. -/
def clean_metadata (m : List (String × PyVal)) : List (String × String) :=
  m.filterMap (fun kv =>
    match kv.2 with
    | .none => Option.none
    | v => Option.some (kv.1, pyStr v))

/-- One condition of a ChromaDB `where` filter: single-value equality or a
multi-value one-of (the `$in` form). -/
inductive FilterCond where
  | eq (s : String)
  | oneOf (ss : List String)
deriving DecidableEq, Repr

namespace RAGSearchService

/-- `RAGSearchService._build_metadata_filter` (search_service.py lines
186-215).  A `None` argument in Python is the empty list here (both are
falsy).  Document ids are stringified before being compared. -/
def build_metadata_filter (document_ids : List Int) (file_types : List String) :
    Option (List (String × FilterCond)) :=
  let c1 : List (String × FilterCond) :=
    match document_ids with
    | [] => []
    | [d] => [("document_id", .eq (toString d))]
    | ds => [("document_id", .oneOf (ds.map toString))]
  let c2 : List (String × FilterCond) :=
    match file_types with
    | [] => []
    | [t] => [("file_type", .eq t)]
    | ts => [("file_type", .oneOf ts)]
  let w := c1 ++ c2
  if w.isEmpty then Option.none else Option.some w

end RAGSearchService

namespace VectorStore

/-- One (id, text, vector, metadata) entry of the ChromaDB collection. -/
structure VectorEntry where
  vid : String
  text : String
  embedding : List ℚ
  metadata : List (String × String)
deriving DecidableEq, Repr

/-- Builds the entries `collection.add` stores, position by position. -/
def mkEntries : List String → List (List ℚ) → List String →
    List (List (String × String)) → List VectorEntry
  | t :: ts, e :: es, i :: is, m :: ms => ⟨i, t, e, m⟩ :: mkEntries ts es is ms
  | _, _, _, _ => []

/-- `VectorStore.add_documents` (vector_store.py lines 81-129).  `genId`
stands for the uuid generator (ids are generated when not provided; the
pipeline never provides them), `chromaOk` for whether the underlying
`collection.add` call succeeds, `vs` for the current collection contents.
Returns the generated ids and the new collection contents. -/
def add_documents (genId : Nat → String) (chromaOk : Bool)
    (vs : List VectorEntry) (texts : List String)
    (embeddings : List (List ℚ)) (metadatas : List (List (String × PyVal))) :
    Except String (List String × List VectorEntry) :=
  if texts.isEmpty || embeddings.isEmpty || metadatas.isEmpty then
    .error "texts, embeddings, and metadatas cannot be empty"
  else if texts.length != embeddings.length || texts.length != metadatas.length then
    .error "texts, embeddings, and metadatas must have the same length"
  else
    let ids := (List.range texts.length).map genId
    let cleaned := metadatas.map clean_metadata
    if chromaOk then
      .ok (ids, vs ++ mkEntries texts embeddings ids cleaned)
    else
      .error "Failed to add documents to vector store"

/-- The reply of `collection.query` for one query vector: aligned lists of
documents, metadatas and distances (the index's `k` nearest neighbours,
ordered as the index returns them). -/
structure ChromaReply where
  documents : List String
  metadatas : List (List (String × String))
  distances : List ℚ
deriving DecidableEq, Repr

/-- One converted search result. -/
structure SearchResult where
  document : String
  similarity_score : ℚ
  distance : ℚ
  metadata : List (String × String)
deriving DecidableEq, Repr

/-- The distance-to-similarity conversion on line 170 of vector_store.py:
`max(0.0, 1.0 - (distance / 2.0))`. -/
def toSimilarity (d : ℚ) : ℚ := max 0 (1 - d / 2)

/-- Converts position `i` of the reply, with the source's defaults for
index mismatches (distance defaults to 1.0, metadata to the empty dict). -/
def convert_result (reply : ChromaReply) (i : Nat) (doc : String) : SearchResult :=
  let d := reply.distances.getD i 1
  { document := doc
    similarity_score := toSimilarity d
    distance := d
    metadata := reply.metadatas.getD i [] }

/-- `VectorStore.similarity_search` (vector_store.py lines 131-185), given
the backing index's reply: convert each returned distance to a similarity
and keep, in reply order, the results whose similarity reaches
`min_similarity`. -/
def similarity_search (reply : ChromaReply) (min_similarity : ℚ) :
    List SearchResult :=
  (reply.documents.enum.map (fun p => convert_result reply p.1 p.2)).filter
    (fun r => min_similarity ≤ r.similarity_score)

/-- `VectorStore.delete_documents` (vector_store.py lines 219-264): an empty
id list is a no-op returning `True`; otherwise `collection.delete` is
attempted — `chromaOk` stands for whether that external call succeeds.  On
success the listed ids are removed (deleting a nonexistent id is not an
error) and `True` is returned; if the call raises, the exception is caught,
the collection is left as it was, and `False` is returned.  The surrounding
existence-check prints are pure diagnostics. -/
def delete_documents (chromaOk : Bool) (ids : List String)
    (vs : List VectorEntry) : List VectorEntry × Bool :=
  if ids.isEmpty then (vs, true)
  else if chromaOk then (vs.filter (fun e => !(ids.contains e.vid)), true)
  else (vs, false)

end VectorStore

namespace EmbeddingService

/-- A zero vector of the given length ("Use zero vector as fallback",
embedding_service.py line 108: `[0.0] * 768`). -/
def zeroVec (n : Nat) : List ℚ := List.replicate n 0

/-- The body of the batch loop of
`EmbeddingService.generate_embeddings_batch` (embedding_service.py lines
96-110), with `embedOne` standing for `generate_embedding` (the external
Gemini call, which raises on failure).  `k` is the absolute index of the
first element of `ts`.  The source iterates in batches of `batch_size`,
but batching only paces the rate limiter: the returned list is the
per-item results in input order, with a failed item replaced by the
hard-coded 768-length zero vector and its index recorded. -/
def embedBatchGo (embedOne : String → Except String (List ℚ)) :
    List String → Nat → List (List ℚ) × List Nat
  | [], _ => ([], [])
  | t :: ts, k =>
    let rest := embedBatchGo embedOne ts (k + 1)
    match embedOne t with
    | .ok e => (e :: rest.1, rest.2)
    | .error _ => (zeroVec 768 :: rest.1, k :: rest.2)

/-- `EmbeddingService.generate_embeddings_batch` (embedding_service.py
lines 72-115): empty input short-circuits to the empty list; otherwise
every text is embedded in order, failures degraded to 768-length zero
vectors.  Returns `(embeddings, failed_indices)`. -/
def generate_embeddings_batch (embedOne : String → Except String (List ℚ))
    (texts : List String) : List (List ℚ) × List Nat :=
  if texts.isEmpty then ([], [])
  else embedBatchGo embedOne texts 0

/-- `EmbeddingService.get_embedding_dimension` (embedding_service.py lines
151-165): probe with a test call; fall back to 768 on failure. -/
def get_embedding_dimension (embedOne : String → Except String (List ℚ)) : Nat :=
  match embedOne "test" with
  | .ok e => e.length
  | .error _ => 768

end EmbeddingService

namespace DocumentProcessor

/-- One chunk as produced by the LangChain splitters
(`TextChunker.chunk_documents`): page content plus the metadata keys the
pipeline later reads (`page`, `file_name`, `file_type`). -/
structure RawChunk where
  page_content : String
  page : Option Nat
  file_name : Option String
  file_type : Option String
deriving DecidableEq, Repr

/-- One element of the `chunk_data` list built by
`DocumentProcessor.process_document` (text_processing.py lines 254-266). -/
structure ChunkData where
  content : String
  chunk_index : Nat
  character_count : Nat
  word_count : Nat
  start_page : Option Nat
  end_page : Option Nat
  meta_file_name : Option String
  meta_file_type : Option String
deriving DecidableEq, Repr

/-- Document-level metadata (`DocumentProcessor._calculate_metadata`); the
unused `estimated_reading_time_minutes` key is omitted because
`_finalize_document` never reads it. -/
structure DocMeta where
  word_count : Nat
  character_count : Nat
  page_count : Nat
deriving DecidableEq, Repr

/-- Python `str.split()` with no argument: split on whitespace, dropping
empty pieces. -/
def pyWords (s : String) : List String :=
  (s.split Char.isWhitespace).filter (fun w => w != "")

/-- The conversion loop of text_processing.py lines 255-266: each chunk is
turned into its dict form and the zero-based ordinal `chunk_index` is
assigned by enumeration order. -/
def chunkDataOf (chunks : List RawChunk) : List ChunkData :=
  chunks.enum.map (fun p =>
    { content := p.2.page_content
      chunk_index := p.1
      character_count := p.2.page_content.length
      word_count := (pyWords p.2.page_content).length
      start_page := p.2.page
      end_page := p.2.page
      meta_file_name := p.2.file_name
      meta_file_type := p.2.file_type })

/-- The truthiness test `not full_text.strip()` of text_processing.py line
241: the text strips to the empty string exactly when every character is
whitespace. -/
def stripsToEmpty (s : String) : Bool := s.toList.all Char.isWhitespace

/-- `DocumentProcessor.process_document` (text_processing.py lines
213-271), parameterised by the outputs of the external LangChain
collaborators: `pages` is the loader's per-page text
(`doc.page_content` for each loaded document) and `naive` is the full
chunk list produced by `self.chunker.chunk_documents`.  `maxChunks` is
`settings.MAX_CHUNKS_PER_DOCUMENT`.  The final component is the list of
warnings/log records this function emits while truncating — the source
contains no logging call, so it is always empty.  Returns
`((chunk_data, doc_metadata), warnings)`. -/
def process_document (maxChunks : Nat) (pages : List String)
    (naive : List RawChunk) :
    (List ChunkData × DocMeta) × List String :=
  let full_text := String.intercalate "\n\n" pages
  if stripsToEmpty full_text then
    (([], ⟨0, 0, 0⟩), [])
  else
    let meta : DocMeta :=
      { word_count := (pyWords full_text).length
        character_count := full_text.length
        page_count := if pages.isEmpty then 1 else pages.length }
    let chunks := if naive.length > maxChunks then naive.take maxChunks else naive
    ((chunkDataOf chunks, meta), [])

end DocumentProcessor

open DocumentProcessor VectorStore EmbeddingService

/-- The mutable fields of a `Document` row that the pipeline reads or
writes (models/database.py); upload-time constants are kept as plain
strings, timestamps are unmodelled. -/
structure Doc where
  status : DocumentStatus
  processing_stage : Option ProcessingStage
  error_message : Option String
  word_count : Option Nat
  character_count : Option Nat
  page_count : Option Nat
  original_filename : String
  file_type : String
deriving DecidableEq, Repr

/-- A `ProcessingLog` row (document id, stage, status tag, message); the
optional structured `details` carry only timings and counts and are
unmodelled. -/
structure LogEntry where
  document_id : Nat
  stage : ProcessingStage
  status : String
  message : String
deriving DecidableEq, Repr

/-- A `DocumentChunk` row as written by `_save_chunks_to_db`
(indexing_service.py lines 289-302); the constant status/model/timestamp
columns are unmodelled. -/
structure ChunkRow where
  document_id : Nat
  content : String
  chunk_index : Nat
  character_count : Nat
  word_count : Nat
  start_page : Option Nat
  end_page : Option Nat
  vector_id : Option String
deriving DecidableEq, Repr

/-- The combined persistent state: the relational tables plus the ChromaDB
collection. -/
structure DBState where
  docs : List (Nat × Doc)
  chunks : List ChunkRow
  logs : List LogEntry
  vectors : List VectorEntry
deriving DecidableEq, Repr

/-- `DocumentService.get_document`: look the document up by id. -/
def get_document (s : DBState) (docId : Nat) : Option Doc :=
  (s.docs.find? (fun p => p.1 == docId)).map (fun p => p.2)

/-- Update the document row with the given id in place (SQLAlchemy
attribute assignment plus commit); no-op when the id is absent. -/
def set_doc (s : DBState) (docId : Nat) (f : Doc → Doc) : DBState :=
  { s with docs := s.docs.map (fun p => if p.1 == docId then (p.1, f p.2) else p) }

namespace IndexingService

/-- `IndexingService._log_processing_step` (indexing_service.py lines
400-432): append one `ProcessingLog` row. -/
def log_step (s : DBState) (docId : Nat) (stage : ProcessingStage)
    (status message : String) : DBState :=
  { s with logs := s.logs ++ [⟨docId, stage, status, message⟩] }

/-- `IndexingService._update_document_status` (indexing_service.py lines
346-370): set the status, and the stage when one is given. -/
def update_document_status (s : DBState) (docId : Nat)
    (status : DocumentStatus) (stage : Option ProcessingStage) : DBState :=
  set_doc s docId (fun d =>
    { d with
      status := status
      processing_stage := match stage with
        | some g => some g
        | none => d.processing_stage })

/-- `IndexingService._handle_processing_error` (indexing_service.py lines
372-398): mark the document failed, record the message, append an
error-status log entry. -/
def handle_processing_error (s : DBState) (docId : Nat)
    (error_message : String) : DBState :=
  let s1 := set_doc s docId (fun d =>
    { d with status := .failed, error_message := some error_message })
  log_step s1 docId .complete "error"
    ("Document processing failed: " ++ error_message)

/-- `IndexingService._extract_and_chunk` (indexing_service.py lines
85-135).  `extractO` is the outcome of the
`self.text_processor.process_document` call (file loading is an external
effect).  On failure the exception is re-raised with the
"Text extraction failed" prefix after logging it. -/
def extract_and_chunk
    (extractO : Except String (List ChunkData × DocMeta))
    (s : DBState) (docId : Nat) :
    Except (String × DBState) ((List ChunkData × DocMeta) × DBState) :=
  let s1 := log_step s docId .extraction "info" "Starting text extraction"
  match extractO with
  | .ok r =>
    .ok (r, log_step s1 docId .chunking "success"
      ("Extracted " ++ toString r.1.length ++ " chunks"))
  | .error e =>
    .error ("Text extraction failed: " ++ e,
      log_step s1 docId .extraction "error" ("Text extraction failed: " ++ e))

/-- `IndexingService._generate_embeddings` (indexing_service.py lines
137-188): embed every chunk's content via
`generate_embeddings_batch`, which degrades per-item failures to zero
vectors and never raises, so this step always succeeds. -/
def generate_embeddings_step (embedOne : String → Except String (List ℚ))
    (s : DBState) (docId : Nat) (chunks_data : List ChunkData) :
    List (List ℚ) × DBState :=
  let s1 := log_step s docId .embedding "info" "Generating embeddings"
  let embeddings := (generate_embeddings_batch embedOne
    (chunks_data.map (fun c => c.content))).1
  (embeddings, log_step s1 docId .embedding "success"
    ("Generated " ++ toString embeddings.length ++ " embeddings"))

/-- Python `value or default` for the optional chunk-metadata strings used
on lines 234-235 of indexing_service.py (`None` and `""` are falsy). -/
def pyOr (o : Option String) (dflt : String) : String :=
  match o with
  | some v => if v = "" then dflt else v
  | none => dflt

/-- The metadata dict built per chunk on lines 227-236 of
indexing_service.py. -/
def chunk_metadata (docId : Nat) (doc_file_name doc_file_type : String)
    (c : ChunkData) : List (String × PyVal) :=
  [("document_id", .int docId),
   ("chunk_index", .int c.chunk_index),
   ("character_count", .int c.character_count),
   ("word_count", .int c.word_count),
   ("start_page", match c.start_page with | some n => .int n | none => .none),
   ("end_page", match c.end_page with | some n => .int n | none => .none),
   ("file_name", .str (pyOr c.meta_file_name doc_file_name)),
   ("file_type", .str (pyOr c.meta_file_type doc_file_type))]

/-- `IndexingService._store_in_vector_db` (indexing_service.py lines
190-267): build the per-chunk metadata, call `VectorStore.add_documents`,
re-raise its failure with the "Vector storage failed" prefix. -/
def store_in_vector_db (genId : Nat → String) (chromaOk : Bool)
    (s : DBState) (docId : Nat) (chunks_data : List ChunkData)
    (embeddings : List (List ℚ)) :
    Except (String × DBState) (List String × DBState) :=
  let s1 := log_step s docId .indexing "info" "Storing chunks in vector database"
  let doc_file_name := match get_document s1 docId with
    | some d => d.original_filename
    | none => "unknown"
  let doc_file_type := match get_document s1 docId with
    | some d => d.file_type
    | none => "unknown"
  let metadatas := chunks_data.map (chunk_metadata docId doc_file_name doc_file_type)
  match add_documents genId chromaOk s1.vectors
      (chunks_data.map (fun c => c.content)) embeddings metadatas with
  | .ok (ids, vs) =>
    let s2 := { s1 with vectors := vs }
    .ok (ids, log_step s2 docId .indexing "success"
      ("Stored " ++ toString ids.length ++ " chunks in vector database"))
  | .error e =>
    .error ("Vector storage failed: " ++ e,
      log_step s1 docId .indexing "error" ("Vector storage failed: " ++ e))

/-- `IndexingService._save_chunks_to_db` (indexing_service.py lines
269-318): bulk-insert one `DocumentChunk` row per (chunk, vector id) pair
and log the save.  The relational store is total in the model. -/
def save_chunks_to_db (s : DBState) (docId : Nat)
    (chunks_data : List ChunkData) (vector_ids : List String) : DBState :=
  let rows := (chunks_data.zip vector_ids).map (fun p =>
    { document_id := docId
      content := p.1.content
      chunk_index := p.1.chunk_index
      character_count := p.1.character_count
      word_count := p.1.word_count
      start_page := p.1.start_page
      end_page := p.1.end_page
      vector_id := some p.2 : ChunkRow })
  let s1 := { s with chunks := s.chunks ++ rows }
  log_step s1 docId .complete "success"
    ("Saved " ++ toString rows.length ++ " chunks to database")

/-- `IndexingService._finalize_document` (indexing_service.py lines
320-344): write the derived metadata, set status `indexed`, stage
`complete`, and clear any previous error message. -/
def finalize_document (s : DBState) (docId : Nat) (meta : DocMeta) : DBState :=
  set_doc s docId (fun d =>
    { d with
      word_count := some meta.word_count
      character_count := some meta.character_count
      page_count := some meta.page_count
      status := .indexed
      processing_stage := some .complete
      error_message := none })

/-- The `try` block of `IndexingService.process_document` (steps 1-5 plus
the final success log, indexing_service.py lines 55-78).  An error result
carries the exception message and the state as mutated up to the raise. -/
def tryPipeline (extractO : Except String (List ChunkData × DocMeta))
    (embedOne : String → Except String (List ℚ))
    (genId : Nat → String) (chromaOk : Bool)
    (s : DBState) (docId : Nat) : Except (String × DBState) DBState :=
  match extract_and_chunk extractO s docId with
  | .error e => .error e
  | .ok (cd, s1) =>
    let em := generate_embeddings_step embedOne s1 docId cd.1
    match store_in_vector_db genId chromaOk em.2 docId cd.1 em.1 with
    | .error e => .error e
    | .ok (vids, s3) =>
      let s4 := save_chunks_to_db s3 docId cd.1 vids
      let s5 := finalize_document s4 docId cd.2
      .ok (log_step s5 docId .complete "success"
        ("Successfully processed document with " ++ toString cd.1.length ++ " chunks"))

/-- `IndexingService.process_document` (indexing_service.py lines 34-83):
missing document returns `False`; otherwise set status `processing`, run
the pipeline, and convert any raised exception into
`_handle_processing_error` plus a `False` return.  The function is total:
no exception escapes. -/
def process_document (extractO : Except String (List ChunkData × DocMeta))
    (embedOne : String → Except String (List ℚ))
    (genId : Nat → String) (chromaOk : Bool)
    (s : DBState) (docId : Nat) : DBState × Bool :=
  match get_document s docId with
  | none => (s, false)
  | some _ =>
    let s1 := update_document_status s docId .processing (some .extraction)
    match tryPipeline extractO embedOne genId chromaOk s1 docId with
    | .ok s2 => (s2, true)
    | .error (msg, sErr) => (handle_processing_error sErr docId msg, false)

/-- `IndexingService._cleanup_document_data` (indexing_service.py lines
501-550): collect the document's chunks' non-empty vector ids, delete them
from the vector store when there are any (best-effort: `chromaOk` is
whether the backing delete call succeeds, and its returned success flag is
only printed), then delete the document's chunk rows and log rows either
way. -/
def cleanup_document_data (chromaOk : Bool) (s : DBState) (docId : Nat) :
    DBState :=
  let docChunks := s.chunks.filter (fun c => c.document_id == docId)
  let vector_ids := docChunks.filterMap (fun c =>
    match c.vector_id with
    | some v => if v = "" then Option.none else Option.some v
    | none => Option.none)
  let vectors1 :=
    if docChunks.isEmpty then s.vectors
    else if vector_ids.isEmpty then s.vectors
    else (delete_documents chromaOk vector_ids s.vectors).1
  { s with
    vectors := vectors1
    chunks := s.chunks.filter (fun c => !(c.document_id == docId))
    logs := s.logs.filter (fun l => !(l.document_id == docId)) }

end IndexingService

namespace DocumentsEndpoint

/-- The HTTP outcome of the process-document endpoint. -/
inductive EndpointResult where
  | notFound
  | badRequest (currentStatus : DocumentStatus)
  | processed
  | serverError
deriving DecidableEq, Repr

/-- The `process_document` endpoint (api/v1/endpoints/documents.py lines
54-109): 404 when the document does not exist; 400 rejection when its
status is not `uploaded` or `failed` (the state is untouched); otherwise
run `IndexingService.process_document` and map its boolean to 200/500. -/
def process_document (extractO : Except String (List ChunkData × DocMeta))
    (embedOne : String → Except String (List ℚ))
    (genId : Nat → String) (chromaOk : Bool)
    (s : DBState) (docId : Nat) : DBState × EndpointResult :=
  match get_document s docId with
  | none => (s, .notFound)
  | some doc =>
    if doc.status = .uploaded ∨ doc.status = .failed then
      let r := IndexingService.process_document extractO embedOne genId chromaOk s docId
      (r.1, if r.2 then .processed else .serverError)
    else
      (s, .badRequest doc.status)

end DocumentsEndpoint

section Helpers

open DocumentProcessor EmbeddingService VectorStore

/-- The chunk-index assignment is literally the enumeration index. -/
lemma chunkDataOf_map_index (l : List RawChunk) :
    (chunkDataOf l).map (fun c => c.chunk_index) = List.range l.length := by
  simp only [chunkDataOf, List.map_map]
  have : ((fun c : ChunkData => c.chunk_index) ∘
      (fun p : Nat × RawChunk =>
        ({ content := p.2.page_content, chunk_index := p.1,
           character_count := p.2.page_content.length,
           word_count := (pyWords p.2.page_content).length,
           start_page := p.2.page, end_page := p.2.page,
           meta_file_name := p.2.file_name, meta_file_type := p.2.file_type } : ChunkData)))
      = Prod.fst := rfl
  rw [this, List.enum_map_fst]

lemma chunkDataOf_length (l : List RawChunk) :
    (chunkDataOf l).length = l.length := by
  simp [chunkDataOf]

lemma filter_filter_not {α : Type} (l : List α) (p : α → Bool) :
    (l.filter (fun x => !(p x))).filter p = [] := by
  induction l with
  | nil => rfl
  | cons a l ih =>
    by_cases h : p a <;> simp [h, ih, List.filter_cons]

lemma toSimilarity_antitone {d1 d2 : ℚ} (h : d1 ≤ d2) :
    toSimilarity d2 ≤ toSimilarity d1 := by
  unfold toSimilarity
  apply max_le_max le_rfl
  linarith

lemma embedBatchGo_length (embedOne : String → Except String (List ℚ))
    (ts : List String) (k : Nat) :
    (embedBatchGo embedOne ts k).1.length = ts.length := by
  induction ts generalizing k with
  | nil => rfl
  | cons t ts ih =>
    unfold embedBatchGo
    cases embedOne t <;> simp [ih]

lemma embedBatchGo_get (embedOne : String → Except String (List ℚ))
    (ts : List String) (k i : Nat) (h : i < ts.length) :
    (embedBatchGo embedOne ts k).1.get? i
      = some (match embedOne (ts.getD i "") with
              | .ok e => e
              | .error _ => zeroVec 768) := by
  induction ts generalizing i k with
  | nil => simp at h
  | cons t ts ih =>
    unfold embedBatchGo
    cases i with
    | zero => cases he : embedOne t <;> simp [he]
    | succ j =>
      have hj : j < ts.length := by simpa using h
      cases he : embedOne t <;>
        simp only [he, List.get?_cons_succ, List.getD_cons_succ] <;>
        exact ih (k + 1) j hj

end Helpers

/-- C9: chunk ordinals are exactly 0..N-1 in output order. -/
theorem chunk_ordinals_contiguous (maxChunks : Nat) (pages : List String)
    (naive : List DocumentProcessor.RawChunk) :
    ((DocumentProcessor.process_document maxChunks pages naive).1.1).map
        (fun c => c.chunk_index)
      = List.range ((DocumentProcessor.process_document maxChunks pages naive).1.1).length := by
  have key : ∀ l : List DocumentProcessor.RawChunk,
      (DocumentProcessor.chunkDataOf l).map (fun c => c.chunk_index)
        = List.range (DocumentProcessor.chunkDataOf l).length := by
    intro l
    rw [chunkDataOf_length]
    exact chunkDataOf_map_index l
  simp only [DocumentProcessor.process_document]
  split
  · simp
  · exact key _

/-- C3 counterexample: truncation happens with an empty warning/log trace. -/
theorem chunk_cap_silent_counterexample :
    (DocumentProcessor.process_document 2 ["abc"]
        [⟨"a", none, none, none⟩, ⟨"b", none, none, none⟩, ⟨"c", none, none, none⟩]).1.1.length = 2
    ∧ (DocumentProcessor.process_document 2 ["abc"]
        [⟨"a", none, none, none⟩, ⟨"b", none, none, none⟩, ⟨"c", none, none, none⟩]).2 = [] := by
  decide

/-- C3 amended: cap keeps the first maxChunks chunks, silently. -/
theorem chunk_cap_first_n_silent (maxChunks : Nat) (pages : List String)
    (naive : List DocumentProcessor.RawChunk)
    (hne : DocumentProcessor.stripsToEmpty (String.intercalate "\n\n" pages) = false)
    (hover : naive.length > maxChunks) :
    (DocumentProcessor.process_document maxChunks pages naive).1.1
        = DocumentProcessor.chunkDataOf (naive.take maxChunks)
    ∧ (DocumentProcessor.process_document maxChunks pages naive).1.1.length = maxChunks
    ∧ (DocumentProcessor.process_document maxChunks pages naive).2 = []
    ∧ DocumentProcessor.process_document maxChunks pages naive
        = DocumentProcessor.process_document maxChunks pages (naive.take maxChunks) := by
  have hlen : ¬ ((naive.take maxChunks).length > maxChunks) := by
    simp [List.length_take]
  have hmain : DocumentProcessor.process_document maxChunks pages naive
      = ((DocumentProcessor.chunkDataOf (naive.take maxChunks),
          ⟨(DocumentProcessor.pyWords (String.intercalate "\n\n" pages)).length,
           (String.intercalate "\n\n" pages).length,
           if pages.isEmpty then 1 else pages.length⟩), []) := by
    simp only [DocumentProcessor.process_document]
    rw [hne]
    simp only [Bool.false_eq_true, if_false, if_pos hover]
  have htake : DocumentProcessor.process_document maxChunks pages (naive.take maxChunks)
      = ((DocumentProcessor.chunkDataOf (naive.take maxChunks),
          ⟨(DocumentProcessor.pyWords (String.intercalate "\n\n" pages)).length,
           (String.intercalate "\n\n" pages).length,
           if pages.isEmpty then 1 else pages.length⟩), []) := by
    simp only [DocumentProcessor.process_document]
    rw [hne]
    simp only [Bool.false_eq_true, if_false, if_neg hlen]
  rw [hmain, htake]
  refine ⟨rfl, ?_, rfl, rfl⟩
  simp only [chunkDataOf_length, List.length_take]
  omega

theorem chunk_cap_first_n_silent_witness :
    (DocumentProcessor.process_document 2 ["abc"]
        [⟨"a", none, none, none⟩, ⟨"b", none, none, none⟩, ⟨"c", none, none, none⟩]).1.1
      = DocumentProcessor.chunkDataOf
          [⟨"a", none, none, none⟩, ⟨"b", none, none, none⟩] := by
  have h := chunk_cap_first_n_silent 2 ["abc"]
    [⟨"a", none, none, none⟩, ⟨"b", none, none, none⟩, ⟨"c", none, none, none⟩]
    (by decide) (by decide)
  exact h.1

set_option maxRecDepth 8192 in
/-- C2 counterexample: the fallback vector is 768-long even when the probed
dimension is 2. -/
theorem embed_fallback_not_dimension_counterexample :
    (EmbeddingService.generate_embeddings_batch
        (fun t => if t = "bad" then Except.error "fail" else Except.ok [1, 2])
        ["ok", "bad"]).1.get? 1 = some (EmbeddingService.zeroVec 768)
    ∧ EmbeddingService.get_embedding_dimension
        (fun t => if t = "bad" then Except.error "fail" else Except.ok [1, 2]) = 2
    ∧ ((EmbeddingService.zeroVec 768).length == (EmbeddingService.zeroVec 2).length) = false := by
  refine ⟨?_, rfl, by decide⟩
  have h := embedBatchGo_get
    (fun t => if t = "bad" then Except.error "fail" else Except.ok [1, 2])
    ["ok", "bad"] 0 1 (by decide)
  simpa [EmbeddingService.generate_embeddings_batch] using h

/-- C2 amended: same length and order; failures become 768-long zero vectors. -/
theorem embed_batch_order_and_fallback
    (embedOne : String → Except String (List ℚ)) (texts : List String)
    (hne : texts ≠ []) :
    ((EmbeddingService.generate_embeddings_batch embedOne texts).1).length = texts.length
    ∧ ∀ i, i < texts.length →
        ((EmbeddingService.generate_embeddings_batch embedOne texts).1).get? i
          = some (match embedOne (texts.getD i "") with
                  | .ok e => e
                  | .error _ => EmbeddingService.zeroVec 768) := by
  have hie : texts.isEmpty = false := by
    cases texts with
    | nil => exact absurd rfl hne
    | cons a l => rfl
  unfold EmbeddingService.generate_embeddings_batch
  rw [hie]
  simp only [Bool.false_eq_true, if_false]
  exact ⟨embedBatchGo_length embedOne texts 0,
    fun i hi => embedBatchGo_get embedOne texts 0 i hi⟩

theorem embed_batch_order_and_fallback_witness :
    ((EmbeddingService.generate_embeddings_batch
        (fun t => if t = "bad" then Except.error "e" else Except.ok [5])
        ["a", "bad"]).1).length = 2
    ∧ ((EmbeddingService.generate_embeddings_batch
        (fun t => if t = "bad" then Except.error "e" else Except.ok [5])
        ["a", "bad"]).1).get? 1 = some (EmbeddingService.zeroVec 768) := by
  have h := embed_batch_order_and_fallback
    (fun t => if t = "bad" then Except.error "e" else Except.ok [5])
    ["a", "bad"] (by decide)
  exact ⟨h.1, h.2 1 (by decide)⟩

/-- C10: sanitized metadata is all-string; filters use stringified ids. -/
theorem metadata_values_all_strings (m : List (String × PyVal)) :
    (∀ k v, (k, v) ∈ clean_metadata m →
        ∃ v0, (k, v0) ∈ m ∧ v0 ≠ PyVal.none ∧ v = pyStr v0)
    ∧ (∀ k v0, (k, v0) ∈ m → v0 ≠ PyVal.none → (k, pyStr v0) ∈ clean_metadata m)
    ∧ (∀ d : Int, RAGSearchService.build_metadata_filter [d] []
        = some [("document_id", FilterCond.eq (toString d))]) := by
  refine ⟨?_, ?_, fun d => rfl⟩
  · intro k v hkv
    rw [clean_metadata, List.mem_filterMap] at hkv
    obtain ⟨⟨k0, v0⟩, hmem, hf⟩ := hkv
    cases v0 with
    | none => simp at hf
    | str s => exact ⟨.str s, by simp at hf; simp [hf.1 ▸ hmem, hf], by simp at hf; simp [hf]⟩
    | int n => exact ⟨.int n, by simp at hf; simp [hf.1 ▸ hmem, hf], by simp at hf; simp [hf]⟩
    | bool b => exact ⟨.bool b, by simp at hf; simp [hf.1 ▸ hmem, hf], by simp at hf; simp [hf]⟩
  · intro k v0 hmem hne
    rw [clean_metadata, List.mem_filterMap]
    refine ⟨(k, v0), hmem, ?_⟩
    cases v0 with
    | none => exact absurd rfl hne
    | str s => rfl
    | int n => rfl
    | bool b => rfl

theorem metadata_values_all_strings_witness :
    ("a", pyStr (PyVal.int 5)) ∈ clean_metadata [("a", PyVal.int 5)]
    ∧ RAGSearchService.build_metadata_filter [7] []
        = some [("document_id", FilterCond.eq (toString (7 : Int)))] := by
  exact ⟨(metadata_values_all_strings [("a", PyVal.int 5)]).2.1 "a" (PyVal.int 5)
      (by simp) (by simp),
    (metadata_values_all_strings []).2.2 7⟩

/-- C7: cleanup is idempotent (for any success/failure of the two backing
delete calls); the post-state has no chunks and no logs for the document;
when the backing delete call succeeds, no vector entry referenced by any of
the document's chunks (through a non-empty vector id) remains; and a vector
delete with an empty id list is a no-op success. -/
theorem cleanup_idempotent (c1 c2 : Bool) (s : DBState) (docId : Nat) :
    IndexingService.cleanup_document_data c2
        (IndexingService.cleanup_document_data c1 s docId) docId
      = IndexingService.cleanup_document_data c1 s docId
    ∧ ((IndexingService.cleanup_document_data c1 s docId).chunks.filter
        (fun c => c.document_id == docId)) = []
    ∧ ((IndexingService.cleanup_document_data c1 s docId).logs.filter
        (fun l => l.document_id == docId)) = []
    ∧ (∀ e, e ∈ (IndexingService.cleanup_document_data true s docId).vectors →
        (((s.chunks.filter (fun c => c.document_id == docId)).filterMap (fun c =>
            match c.vector_id with
            | some v => if v = "" then Option.none else Option.some v
            | none => Option.none)).contains e.vid) = false)
    ∧ ∀ vs, VectorStore.delete_documents c1 [] vs = (vs, true) := by
  refine ⟨?_, ?_, ?_, ?_, fun vs => rfl⟩
  · simp only [IndexingService.cleanup_document_data]
    simp [filter_filter_not, List.filter_filter]
  · simp only [IndexingService.cleanup_document_data]
    exact filter_filter_not _ _
  · simp only [IndexingService.cleanup_document_data]
    exact filter_filter_not _ _
  · intro e he
    simp only [IndexingService.cleanup_document_data] at he
    split at he
    · next h =>
        rw [List.isEmpty_iff.mp h]
        rfl
    · split at he
      · next h2 =>
          rw [List.isEmpty_iff.mp h2]
          rfl
      · next h2 =>
          rw [VectorStore.delete_documents, if_neg h2, if_pos rfl] at he
          simp at he
          simpa using he.2

theorem cleanup_idempotent_witness :
    IndexingService.cleanup_document_data true
        (IndexingService.cleanup_document_data true
          ⟨[], [⟨5, "hello", 0, 5, 1, none, none, some "vid1"⟩],
           [⟨5, .complete, "info", "m"⟩],
           [⟨"vid1", "hello", [], []⟩, ⟨"other", "x", [], []⟩]⟩ 5) 5
      = IndexingService.cleanup_document_data true
          ⟨[], [⟨5, "hello", 0, 5, 1, none, none, some "vid1"⟩],
           [⟨5, .complete, "info", "m"⟩],
           [⟨"vid1", "hello", [], []⟩, ⟨"other", "x", [], []⟩]⟩ 5
    ∧ (((⟨[], [⟨5, "hello", 0, 5, 1, none, none, some "vid1"⟩],
           [⟨5, .complete, "info", "m"⟩],
           [⟨"vid1", "hello", [], []⟩, ⟨"other", "x", [], []⟩]⟩ : DBState).chunks.filter
            (fun c => c.document_id == 5)).filterMap (fun c =>
            match c.vector_id with
            | some v => if v = "" then Option.none else Option.some v
            | none => Option.none)).contains
          (⟨"other", "x", [], []⟩ : VectorEntry).vid = false := by
  have h := cleanup_idempotent true true
    ⟨[], [⟨5, "hello", 0, 5, 1, none, none, some "vid1"⟩],
     [⟨5, .complete, "info", "m"⟩],
     [⟨"vid1", "hello", [], []⟩, ⟨"other", "x", [], []⟩]⟩ 5
  exact ⟨h.1, h.2.2.2.1 ⟨"other", "x", [], []⟩ (by decide)⟩

/-- C4 counterexample: a negative raw distance yields similarity 2, above 1,
instead of the claimed clamp to 1. -/
theorem similarity_above_one_counterexample :
    VectorStore.similarity_search ⟨["x"], [[]], [-2]⟩ 0
      = [{ document := "x", similarity_score := 2, distance := -2, metadata := [] }]
    ∧ (1 : ℚ) < 2 := by
  constructor
  · norm_num [VectorStore.similarity_search, VectorStore.convert_result,
      VectorStore.toSimilarity, List.enum, List.filter]
  · norm_num

/-- C4 amended: similarity is max(0, 1 - d/2): clamped below at 0 but not
above; it lies in [0,1] only when the distance is nonnegative. -/
theorem similarity_conversion_lower_clamp_only
    (reply : VectorStore.ChromaReply) (m : ℚ) (r : VectorStore.SearchResult)
    (hr : r ∈ VectorStore.similarity_search reply m) :
    r.similarity_score = max 0 (1 - r.distance / 2)
    ∧ 0 ≤ r.similarity_score
    ∧ (0 ≤ r.distance → r.similarity_score ≤ 1) := by
  rw [VectorStore.similarity_search, List.mem_filter] at hr
  obtain ⟨hmem, _⟩ := hr
  rw [List.mem_map] at hmem
  obtain ⟨p, _, hp⟩ := hmem
  subst hp
  refine ⟨rfl, le_max_left 0 _, fun hd => ?_⟩
  apply max_le (by norm_num)
  have : (0 : ℚ) ≤ reply.distances.getD p.1 1 := hd
  linarith

theorem similarity_conversion_lower_clamp_only_witness :
    (⟨"x", 1/2, 1, []⟩ : VectorStore.SearchResult).similarity_score
        = max 0 (1 - (⟨"x", 1/2, 1, []⟩ : VectorStore.SearchResult).distance / 2)
    ∧ 0 ≤ (⟨"x", 1/2, 1, []⟩ : VectorStore.SearchResult).similarity_score
    ∧ (⟨"x", 1/2, 1, []⟩ : VectorStore.SearchResult).similarity_score ≤ 1 := by
  have hmem : (⟨"x", 1/2, 1, []⟩ : VectorStore.SearchResult)
      ∈ VectorStore.similarity_search ⟨["x"], [[]], [1]⟩ 0 := by
    norm_num [VectorStore.similarity_search, VectorStore.convert_result,
      VectorStore.toSimilarity, List.enum, List.filter]
  have h := similarity_conversion_lower_clamp_only ⟨["x"], [[]], [1]⟩ 0 _ hmem
  exact ⟨h.1, h.2.1, h.2.2 (by norm_num)⟩

/-- C5: threshold filtering happens after conversion, over the index's k
results, and the output is ordered by descending similarity whenever the
backing index returns distances in ascending order. -/
theorem similarity_search_threshold_and_order
    (reply : VectorStore.ChromaReply) (m : ℚ)
    (hlen : reply.distances.length = reply.documents.length)
    (hsorted : reply.distances.Pairwise (fun a b => a ≤ b)) :
    VectorStore.similarity_search reply m
      = (reply.documents.enum.map
          (fun p => VectorStore.convert_result reply p.1 p.2)).filter
          (fun r => m ≤ r.similarity_score)
    ∧ ((VectorStore.similarity_search reply m).map
          (fun r => r.similarity_score)).Pairwise (fun a b => b ≤ a) := by
  refine ⟨rfl, ?_⟩
  rw [VectorStore.similarity_search, List.pairwise_map]
  apply List.Pairwise.filter
  rw [List.pairwise_map]
  rw [List.pairwise_iff_getElem]
  intro i j hi hj hij
  have hi2 : i < reply.documents.length := by simpa using hi
  have hj2 : j < reply.documents.length := by simpa using hj
  have hei : reply.documents.enum[i] = (i, reply.documents[i]) :=
    List.getElem_enum ..
  have hej : reply.documents.enum[j] = (j, reply.documents[j]) :=
    List.getElem_enum ..
  rw [hei, hej]
  show VectorStore.toSimilarity (reply.distances.getD j 1)
      ≤ VectorStore.toSimilarity (reply.distances.getD i 1)
  rw [List.getD_eq_getElem reply.distances 1 (hlen ▸ hj2),
      List.getD_eq_getElem reply.distances 1 (hlen ▸ hi2)]
  apply toSimilarity_antitone
  exact (List.pairwise_iff_getElem.mp hsorted) i j (hlen ▸ hi2) (hlen ▸ hj2) hij

theorem similarity_search_threshold_and_order_witness :
    VectorStore.similarity_search ⟨["a", "b", "c"], [[], [], []], [1/5, 6/5, 19/10]⟩ (3/10)
      = ((⟨["a", "b", "c"], [[], [], []], [1/5, 6/5, 19/10]⟩ :
            VectorStore.ChromaReply).documents.enum.map
          (fun p => VectorStore.convert_result
            ⟨["a", "b", "c"], [[], [], []], [1/5, 6/5, 19/10]⟩ p.1 p.2)).filter
          (fun r => 3/10 ≤ r.similarity_score)
    ∧ ((VectorStore.similarity_search
          ⟨["a", "b", "c"], [[], [], []], [1/5, 6/5, 19/10]⟩ (3/10)).map
          (fun r => r.similarity_score)).Pairwise (fun a b => b ≤ a) := by
  exact similarity_search_threshold_and_order
    ⟨["a", "b", "c"], [[], [], []], [1/5, 6/5, 19/10]⟩ (3/10)
    (by rfl) (by norm_num [List.pairwise_cons])

lemma find?_map_upd (l : List (Nat × Doc)) (i : Nat) (f : Doc → Doc) :
    (l.map (fun p => if p.1 == i then (p.1, f p.2) else p)).find? (fun p => p.1 == i)
      = (l.find? (fun p => p.1 == i)).map (fun p => (p.1, f p.2)) := by
  induction l with
  | nil => rfl
  | cons a l ih =>
    rw [List.map_cons]
    cases h : (a.1 == i) with
    | true =>
      rw [if_pos rfl,
        List.find?_cons_of_pos (p := fun q : Nat × Doc => q.1 == i)
          (a := (a.1, f a.2)) _ h,
        List.find?_cons_of_pos (p := fun q : Nat × Doc => q.1 == i) _ h]
      rfl
    | false =>
      rw [if_neg (by simp),
        List.find?_cons_of_neg (p := fun q : Nat × Doc => q.1 == i) _ (by simp [h]),
        List.find?_cons_of_neg (p := fun q : Nat × Doc => q.1 == i) _ (by simp [h]), ih]

lemma get_document_set_doc (s : DBState) (i : Nat) (f : Doc → Doc) :
    get_document (set_doc s i f) i = (get_document s i).map f := by
  unfold get_document set_doc
  rw [find?_map_upd]
  cases s.docs.find? (fun p => p.1 == i) <;> rfl

lemma get_document_congr (s1 s2 : DBState) (h : s1.docs = s2.docs) (i : Nat) :
    get_document s1 i = get_document s2 i := by
  simp [get_document, h]

lemma extract_and_chunk_error_docs (E : Except String (List DocumentProcessor.ChunkData × DocumentProcessor.DocMeta))
    (s : DBState) (d : Nat) (msg : String) (se : DBState)
    (h : IndexingService.extract_and_chunk E s d = .error (msg, se)) : se.docs = s.docs := by
  simp only [IndexingService.extract_and_chunk] at h
  split at h
  · simp at h
  · simp only [Except.error.injEq, Prod.mk.injEq] at h
    rw [← h.2]
    rfl

lemma extract_and_chunk_ok_docs (E : Except String (List DocumentProcessor.ChunkData × DocumentProcessor.DocMeta))
    (s : DBState) (d : Nat) (r : List DocumentProcessor.ChunkData × DocumentProcessor.DocMeta) (s1 : DBState)
    (h : IndexingService.extract_and_chunk E s d = .ok (r, s1)) : s1.docs = s.docs := by
  simp only [IndexingService.extract_and_chunk] at h
  split at h
  · simp only [Except.ok.injEq, Prod.mk.injEq] at h
    rw [← h.2]
    rfl
  · simp at h

lemma generate_embeddings_step_docs (Em : String → Except String (List ℚ))
    (s : DBState) (d : Nat) (cd : List DocumentProcessor.ChunkData) :
    ((IndexingService.generate_embeddings_step Em s d cd).2).docs = s.docs := rfl

lemma store_in_vector_db_error_docs (G : Nat → String) (C : Bool) (s : DBState) (d : Nat)
    (cd : List DocumentProcessor.ChunkData) (em : List (List ℚ)) (msg : String) (se : DBState)
    (h : IndexingService.store_in_vector_db G C s d cd em = .error (msg, se)) :
    se.docs = s.docs := by
  simp only [IndexingService.store_in_vector_db] at h
  split at h
  · simp at h
  · simp only [Except.error.injEq, Prod.mk.injEq] at h
    rw [← h.2]
    rfl

lemma get_document_log_step (s : DBState) (d : Nat) (g : ProcessingStage)
    (st m : String) (i : Nat) :
    get_document (IndexingService.log_step s d g st m) i = get_document s i := rfl

lemma tryPipeline_error_docs (E : Except String (List DocumentProcessor.ChunkData × DocumentProcessor.DocMeta))
    (Em : String → Except String (List ℚ)) (G : Nat → String) (C : Bool)
    (s : DBState) (d : Nat) (msg : String) (se : DBState)
    (h : IndexingService.tryPipeline E Em G C s d = .error (msg, se)) :
    se.docs = s.docs := by
  unfold IndexingService.tryPipeline at h
  split at h
  next e heq =>
    simp only [Except.error.injEq] at h
    rw [h] at heq
    exact extract_and_chunk_error_docs E s d msg se heq
  next cd s1 heq =>
    simp only [] at h
    split at h
    next e heq2 =>
      simp only [Except.error.injEq] at h
      rw [h] at heq2
      have d1 := store_in_vector_db_error_docs G C
        (IndexingService.generate_embeddings_step Em s1 d cd.1).2 d cd.1
        (IndexingService.generate_embeddings_step Em s1 d cd.1).1 msg se heq2
      rw [d1, generate_embeddings_step_docs,
        extract_and_chunk_ok_docs E s d cd s1 heq]
    next vids s3 heq2 =>
      simp at h

/-- C6: any exception in the pipeline is converted into a Failed transition,
a recorded error message, an error-status log entry, and a false return. -/
theorem process_document_converts_exceptions
    (E : Except String (List DocumentProcessor.ChunkData × DocumentProcessor.DocMeta))
    (Em : String → Except String (List ℚ)) (G : Nat → String) (C : Bool)
    (s : DBState) (docId : Nat) (doc : Doc)
    (hdoc : get_document s docId = some doc)
    (herr : (IndexingService.tryPipeline E Em G C
        (IndexingService.update_document_status s docId .processing (some .extraction))
        docId).isOk = false) :
    (IndexingService.process_document E Em G C s docId).2 = false
    ∧ (get_document (IndexingService.process_document E Em G C s docId).1 docId).map
        (fun d => d.status) = some .failed
    ∧ ∃ msg,
        (get_document (IndexingService.process_document E Em G C s docId).1 docId).map
          (fun d => d.error_message) = some (some msg)
        ∧ (⟨docId, .complete, "error", "Document processing failed: " ++ msg⟩ : LogEntry)
            ∈ (IndexingService.process_document E Em G C s docId).1.logs := by
  cases htry : IndexingService.tryPipeline E Em G C
      (IndexingService.update_document_status s docId .processing (some .extraction)) docId with
  | ok t =>
    rw [htry] at herr
    simp [Except.isOk, Except.toBool] at herr
  | error e =>
    obtain ⟨msg, sErr⟩ := e
    have hrun : IndexingService.process_document E Em G C s docId
        = (IndexingService.handle_processing_error sErr docId msg, false) := by
      simp only [IndexingService.process_document, hdoc, htry]
    have hse : sErr.docs
        = (IndexingService.update_document_status s docId .processing (some .extraction)).docs :=
      tryPipeline_error_docs E Em G C _ docId msg sErr htry
    have hget1 : get_document sErr docId
        = some { doc with status := .processing, processing_stage := some .extraction } := by
      rw [get_document_congr sErr _ hse docId, IndexingService.update_document_status,
        get_document_set_doc, hdoc]
      rfl
    have hget2 : get_document (IndexingService.handle_processing_error sErr docId msg) docId
        = some { doc with status := .failed, processing_stage := some .extraction, error_message := some msg } := by
      have hh : get_document (IndexingService.handle_processing_error sErr docId msg) docId
          = (get_document sErr docId).map
              (fun d => { d with status := .failed, error_message := some msg }) := by
        simp only [IndexingService.handle_processing_error]
        rw [get_document_log_step, get_document_set_doc]
      rw [hh, hget1]
      rfl
    refine ⟨by rw [hrun], by rw [hrun, hget2]; rfl, msg, by rw [hrun, hget2]; rfl, ?_⟩
    rw [hrun]
    show _ ∈ (IndexingService.handle_processing_error sErr docId msg).logs
    unfold IndexingService.handle_processing_error IndexingService.log_step
    simp

theorem process_document_converts_exceptions_witness :
    (IndexingService.process_document (Except.error "boom")
        (fun _ => Except.error "x") (fun n => toString n) true
        ⟨[(1, ⟨.uploaded, none, none, none, none, none, "f.txt", "txt"⟩)], [], [], []⟩ 1).2 = false
    ∧ (get_document (IndexingService.process_document (Except.error "boom")
        (fun _ => Except.error "x") (fun n => toString n) true
        ⟨[(1, ⟨.uploaded, none, none, none, none, none, "f.txt", "txt"⟩)], [], [], []⟩ 1).1 1).map
          (fun d => d.status) = some .failed := by
  have h := process_document_converts_exceptions (Except.error "boom")
    (fun _ => Except.error "x") (fun n => toString n) true
    ⟨[(1, ⟨.uploaded, none, none, none, none, none, "f.txt", "txt"⟩)], [], [], []⟩ 1
    ⟨.uploaded, none, none, none, none, none, "f.txt", "txt"⟩ rfl rfl
  exact ⟨h.1, h.2.1⟩

/-- C8: a process request for a document that is already processing or
indexed is rejected with a 400 and leaves the state untouched. -/
theorem process_endpoint_rejects_busy
    (E : Except String (List DocumentProcessor.ChunkData × DocumentProcessor.DocMeta))
    (Em : String → Except String (List ℚ)) (G : Nat → String) (C : Bool)
    (s : DBState) (docId : Nat) (doc : Doc)
    (hdoc : get_document s docId = some doc)
    (hst : doc.status = .processing ∨ doc.status = .indexed) :
    DocumentsEndpoint.process_document E Em G C s docId
      = (s, .badRequest doc.status) := by
  have hno : ¬ (doc.status = .uploaded ∨ doc.status = .failed) := by
    rcases hst with h | h <;> simp [h]
  simp only [DocumentsEndpoint.process_document, hdoc]
  rw [if_neg hno]

theorem process_endpoint_rejects_busy_witness :
    DocumentsEndpoint.process_document (Except.error "x")
        (fun _ => Except.error "x") (fun n => toString n) true
        ⟨[(2, ⟨.indexed, none, none, none, none, none, "g.txt", "txt"⟩)], [], [], []⟩ 2
      = (⟨[(2, ⟨.indexed, none, none, none, none, none, "g.txt", "txt"⟩)], [], [], []⟩,
         .badRequest .indexed) :=
  process_endpoint_rejects_busy (Except.error "x") (fun _ => Except.error "x")
    (fun n => toString n) true
    ⟨[(2, ⟨.indexed, none, none, none, none, none, "g.txt", "txt"⟩)], [], [], []⟩ 2
    ⟨.indexed, none, none, none, none, none, "g.txt", "txt"⟩ rfl (Or.inr rfl)

/-- C1: a whitespace-only document produces 0 chunks with zeroed metadata,
but the pipeline then feeds the empty lists to the vector store, whose
validation raises, so the document ends Failed with a false return instead
of the specified Indexed with wordCount 0. -/
theorem empty_document_marked_failed :
    (DocumentProcessor.process_document 1000 ["   "] []).1.1 = []
    ∧ (DocumentProcessor.process_document 1000 ["   "] []).1.2
        = ⟨0, 0, 0⟩
    ∧ (IndexingService.process_document
        (Except.ok ((DocumentProcessor.process_document 1000 ["   "] []).1))
        (fun _ => Except.error "no api call expected") (fun n => toString n) true
        ⟨[(1, ⟨.uploaded, none, none, none, none, none, "empty.txt", "txt"⟩)], [], [], []⟩ 1).2
        = false
    ∧ ((get_document (IndexingService.process_document
        (Except.ok ((DocumentProcessor.process_document 1000 ["   "] []).1))
        (fun _ => Except.error "no api call expected") (fun n => toString n) true
        ⟨[(1, ⟨.uploaded, none, none, none, none, none, "empty.txt", "txt"⟩)], [], [], []⟩ 1).1 1).map
          (fun d => d.status)) = some .failed
    ∧ ((get_document (IndexingService.process_document
        (Except.ok ((DocumentProcessor.process_document 1000 ["   "] []).1))
        (fun _ => Except.error "no api call expected") (fun n => toString n) true
        ⟨[(1, ⟨.uploaded, none, none, none, none, none, "empty.txt", "txt"⟩)], [], [], []⟩ 1).1 1).map
          (fun d => d.error_message))
        = some (some "Vector storage failed: texts, embeddings, and metadatas cannot be empty")
    ∧ (IndexingService.process_document
        (Except.ok ((DocumentProcessor.process_document 1000 ["   "] []).1))
        (fun _ => Except.error "no api call expected") (fun n => toString n) true
        ⟨[(1, ⟨.uploaded, none, none, none, none, none, "empty.txt", "txt"⟩)], [], [], []⟩ 1).1.chunks
        = []
    ∧ (IndexingService.process_document
        (Except.ok ((DocumentProcessor.process_document 1000 ["   "] []).1))
        (fun _ => Except.error "no api call expected") (fun n => toString n) true
        ⟨[(1, ⟨.uploaded, none, none, none, none, none, "empty.txt", "txt"⟩)], [], [], []⟩ 1).1.vectors
        = [] := by
  decide
